import Mathlib

/-!
Verification of the shipment workflow/timeline engine
(`src/shipment/shipment.py` and the shipment operations of
`src/database/database.py`).

Modelling conventions:
* absolute timestamps (`datetime.utcnow()` values) are natural numbers of
  hours; `timedelta(hours=h)` addition is `Nat` addition;
* Python dict records become structures; an optional / possibly-missing
  key becomes `Option`;
* nondeterministic inputs of the code (uuid hex, clock reads, database
  outcomes, user-directory lookups) become explicit parameters;
* the simulation thread's `time.sleep` interval is a rational number of
  seconds (the float arithmetic here is exact division by the speed
  factor, so `ℚ` models it faithfully).
-/

/-- A stage template of the static catalogs: `{"name": ..., "duration_hours": ...}`. -/
structure StageTemplate where
  name : String
  duration_hours : Nat
deriving Repr, DecidableEq

/-- `ShipmentManager.PICKUP_STAGES`. -/
def PICKUP_STAGES : List StageTemplate :=
  [⟨"Pickup Requested", 2⟩,
   ⟨"Pickup Scheduled", 6⟩,
   ⟨"Agent Assigned", 8⟩,
   ⟨"Out for Pickup", 16⟩,
   ⟨"Package Picked Up", 12⟩,
   ⟨"Returned to Warehouse", 4⟩]

/-- `ShipmentManager.DELIVERY_STAGES`. -/
def DELIVERY_STAGES : List StageTemplate :=
  [⟨"Order Confirmed", 2⟩,
   ⟨"Pickup Scheduled", 4⟩,
   ⟨"Package Picked Up", 6⟩,
   ⟨"Shipped", 8⟩,
   ⟨"In Transit", 14⟩,
   ⟨"Out for Delivery", 10⟩,
   ⟨"Delivered", 4⟩]

/-- Sum of the `duration_hours` over a template list. -/
def durSum (l : List StageTemplate) : Nat :=
  (l.map StageTemplate.duration_hours).sum

/-- One entry of a shipment's `timeline` list.  Entries built by
`_generate_timeline` carry all keys; entries pushed by the simulation loop
carry only `name`, `actual_time`, `completed`, so the other keys are
`Option`s. -/
structure TimelineEntry where
  name : String
  duration_hours : Option Nat
  estimated_time : Option Nat
  actual_time : Option Nat
  completed : Bool
deriving Repr, DecidableEq

/-- The loop body of `ShipmentManager._generate_timeline`: `current` is the
running `current_time`, `first` tells whether `timeline` is still empty
(the `if not timeline:` test). -/
def generateTimelineAux : List StageTemplate → Nat → Bool → List TimelineEntry
  | [], _, _ => []
  | s :: rest, current, first =>
      { name := s.name,
        duration_hours := some s.duration_hours,
        estimated_time := some current,
        actual_time := if first then some current else none,
        completed := first }
        :: generateTimelineAux rest (current + s.duration_hours) false

/-- `ShipmentManager._generate_timeline(stages)` with the `datetime.utcnow()`
read made an explicit `start` parameter. -/
def generate_timeline (stages : List StageTemplate) (start : Nat) : List TimelineEntry :=
  generateTimelineAux stages start true

/-- Index-wise characterization of the timeline builder loop. -/
lemma generateTimelineAux_getElem? (stages : List StageTemplate) (current : Nat)
    (first : Bool) (i : Nat) :
    (generateTimelineAux stages current first)[i]? =
      stages[i]?.map (fun s =>
        { name := s.name,
          duration_hours := some s.duration_hours,
          estimated_time := some (current + durSum (stages.take i)),
          actual_time := if first && i == 0 then some current else none,
          completed := first && i == 0 }) := by
  induction stages generalizing current first i with
  | nil => simp [generateTimelineAux]
  | cons s rest ih =>
    cases i with
    | zero =>
      simp [generateTimelineAux, durSum]
    | succ k =>
      have h := ih (current + s.duration_hours) false k
      simp only [generateTimelineAux, List.getElem?_cons_succ]
      rw [h]
      cases hk : rest[k]? with
      | none => simp
      | some t => simp [durSum, Nat.add_assoc]

/-- Index-wise characterization of `_generate_timeline`. -/
lemma generate_timeline_getElem? (stages : List StageTemplate) (start : Nat) (i : Nat) :
    (generate_timeline stages start)[i]? =
      stages[i]?.map (fun s =>
        { name := s.name,
          duration_hours := some s.duration_hours,
          estimated_time := some (start + durSum (stages.take i)),
          actual_time := if i == 0 then some start else none,
          completed := i == 0 }) := by
  have h := generateTimelineAux_getElem? stages start true i
  simpa [generate_timeline] using h

/-- The persisted shipment record (`shipment_data` dict handed to
`db_manager.create_shipment`, plus the `updated_at` key that
`create_shipment` adds before inserting). -/
structure ShipmentRecord where
  shipment_id : String
  type : String
  user_id : String
  order_id : String
  product_id : String
  address : String
  status : String
  current_stage : Option TimelineEntry
  timeline : List TimelineEntry
  estimated_completion : Option Nat
  created_at : Nat
  updated_at : Nat
deriving Repr, DecidableEq

/-- The slice of a user-directory record that creation consults:
`user.get("address", "Address not found")`, so the `address` key may be
absent. -/
structure UserProfile where
  address : Option String
deriving Repr, DecidableEq

/-- Python truthiness test `if not address:` on an optional string:
true for a missing address and for the empty string. -/
def isBlank : Option String → Bool
  | none => true
  | some s => s == ""

/-- Python `a or b` for an optional string `a` and fallback `b`. -/
def pyOr (a : Option String) (b : String) : String :=
  match a with
  | none => b
  | some s => if s == "" then b else s

/-- The address-resolution prelude common to `create_pickup` and
`create_delivery`: if no (truthy) address was supplied, look the user up;
if the lookup matches, take the user's `address` key with default
`"Address not found"`; otherwise leave the supplied value alone. -/
def resolveAddress (address : Option String) (userLookup : Option UserProfile) :
    Option String :=
  if isBlank address then
    match userLookup with
    | some u => some (u.address.getD "Address not found")
    | none => address
  else address

/-- What `db_manager.create_shipment` stores on success: the record with
`created_at` and `updated_at` overwritten by the database's own
`datetime.utcnow()` read (`dbNow`).  Its return value — `some` inserted id
on success, `none` on a connection failure or `PyMongoError` — is an
environment input here (`outcome`). -/
def create_shipment (r : ShipmentRecord) (dbNow : Nat) : ShipmentRecord :=
  { r with created_at := dbNow, updated_at := dbNow }

/-- The result dict returned synchronously by a creation entry point. -/
structure CreateResult where
  success : Bool
  shipment_id : String
  type : String
  status : String
  estimated_completion : Option Nat
  message : String
deriving Repr, DecidableEq

/-- Everything a creation entry point does: the record it hands to the
gateway, the gateway's outcome (which the code never inspects), whether a
progression simulation was started, and the returned summary. -/
structure CreateEffects where
  shipment_data : ShipmentRecord
  gateway_outcome : Option String
  simulation_started : Bool
  result : CreateResult
deriving Repr, DecidableEq

/-- `ShipmentManager.create_pickup`, with the nondeterministic inputs
explicit: `hex8` is `uuid.uuid4().hex[:8].upper()`, `userLookup` the
user-directory read, `now` the manager's clock read, `dbNow` the
database's clock read, `outcome` the gateway write outcome. -/
def create_pickup (user_id order_id product_id : String) (address : Option String)
    (userLookup : Option UserProfile) (now dbNow : Nat) (hex8 : String)
    (outcome : Option String) : CreateEffects :=
  let shipment_id := "PKP-" ++ hex8
  let addr := resolveAddress address userLookup
  let timeline := generate_timeline PICKUP_STAGES now
  let data : ShipmentRecord :=
    { shipment_id := shipment_id
      type := "pickup"
      user_id := user_id
      order_id := order_id
      product_id := product_id
      address := pyOr addr "Address not provided"
      status := "Pickup Requested"
      current_stage := timeline[0]?
      timeline := timeline
      estimated_completion := timeline.getLast?.bind TimelineEntry.estimated_time
      created_at := now
      updated_at := now }
  { shipment_data := create_shipment data dbNow
    gateway_outcome := outcome
    simulation_started := true
    result :=
      { success := true
        shipment_id := shipment_id
        type := "pickup"
        status := "Pickup Requested"
        estimated_completion := timeline.getLast?.bind TimelineEntry.estimated_time
        message := "Pickup scheduled. Shipment ID: " ++ shipment_id } }

/-- `ShipmentManager.create_delivery`, same conventions as
`create_pickup`. -/
def create_delivery (user_id order_id product_id : String) (address : Option String)
    (userLookup : Option UserProfile) (now dbNow : Nat) (hex8 : String)
    (outcome : Option String) : CreateEffects :=
  let shipment_id := "DLV-" ++ hex8
  let addr := resolveAddress address userLookup
  let timeline := generate_timeline DELIVERY_STAGES now
  let data : ShipmentRecord :=
    { shipment_id := shipment_id
      type := "delivery"
      user_id := user_id
      order_id := order_id
      product_id := product_id
      address := pyOr addr "Address not provided"
      status := "Order Confirmed"
      current_stage := timeline[0]?
      timeline := timeline
      estimated_completion := timeline.getLast?.bind TimelineEntry.estimated_time
      created_at := now
      updated_at := now }
  { shipment_data := create_shipment data dbNow
    gateway_outcome := outcome
    simulation_started := true
    result :=
      { success := true
        shipment_id := shipment_id
        type := "delivery"
        status := "Order Confirmed"
        estimated_completion := timeline.getLast?.bind TimelineEntry.estimated_time
        message := "Replacement delivery initiated. Shipment ID: " ++ shipment_id } }

/-- `db_manager.update_shipment_status` on its success path: `$set`s
`status`, `updated_at` and (when stage data is given) `current_stage`,
and `$push`es the stage data onto `timeline`. -/
def update_shipment_status (r : ShipmentRecord) (status : String) (dbNow : Nat)
    (stage_data : Option TimelineEntry) : ShipmentRecord :=
  { r with
    status := status
    updated_at := dbNow
    current_stage :=
      match stage_data with
      | some sd => some sd
      | none => r.current_stage
    timeline :=
      match stage_data with
      | some sd => r.timeline ++ [sd]
      | none => r.timeline }

/-- C5: For each of the two workflow-type catalogs (pickup and delivery),
the sum of the stage durations over the ordered template list equals
exactly 48 hours. -/
theorem C5_catalog_sums_48 :
    durSum PICKUP_STAGES = 48 ∧ durSum DELIVERY_STAGES = 48 := by
  decide

/-- C1 (counterexample): the claim as stated is false on the code.  At
`start = 0` with the pickup catalog, stage 0's `estimated_time` is `0`,
not `0 +` the cumulative duration up to and including stage 0 (which is
`2`); and the last stage's `estimated_time` is `44`, not `0 + 48`. -/
theorem C1_counterexample :
    ((generate_timeline PICKUP_STAGES 0)[0]?.bind TimelineEntry.estimated_time = some 0
      ∧ 0 + durSum (PICKUP_STAGES.take 1) = 2 ∧ (0 : Nat) ≠ 2)
    ∧ ((generate_timeline PICKUP_STAGES 0).getLast?.bind TimelineEntry.estimated_time = some 44
      ∧ (44 : Nat) ≠ 0 + 48) := by
  decide

/-- C1 (amended): for every start time and both catalogs, the timeline
built by `_generate_timeline` gives stage `i` an `estimated_time` equal to
the start time plus the cumulative duration of the stages strictly
*before* stage `i` (so stage 0 sits at the start time); the
`estimated_time`s are strictly increasing across the ordered stage list;
and the last stage's `estimated_time` is `startTime + 44h`
(48h minus the final stage's own duration), for both catalogs. -/
theorem C1_amended_planned_times (start : Nat) :
    ((∀ i, (generate_timeline PICKUP_STAGES start)[i]?.bind TimelineEntry.estimated_time
        = PICKUP_STAGES[i]?.map (fun _ => start + durSum (PICKUP_STAGES.take i)))
      ∧ List.Pairwise (· < ·)
          ((generate_timeline PICKUP_STAGES start).filterMap TimelineEntry.estimated_time)
      ∧ (generate_timeline PICKUP_STAGES start).getLast?.bind TimelineEntry.estimated_time
          = some (start + 44))
    ∧ ((∀ i, (generate_timeline DELIVERY_STAGES start)[i]?.bind TimelineEntry.estimated_time
        = DELIVERY_STAGES[i]?.map (fun _ => start + durSum (DELIVERY_STAGES.take i)))
      ∧ List.Pairwise (· < ·)
          ((generate_timeline DELIVERY_STAGES start).filterMap TimelineEntry.estimated_time)
      ∧ (generate_timeline DELIVERY_STAGES start).getLast?.bind TimelineEntry.estimated_time
          = some (start + 44)) := by
  refine ⟨⟨fun i => ?_, ?_, ?_⟩, fun i => ?_, ?_, ?_⟩
  · rw [generate_timeline_getElem?]; cases PICKUP_STAGES[i]? <;> simp
  · simp [generate_timeline, generateTimelineAux, PICKUP_STAGES, List.filterMap]
    omega
  · simp [generate_timeline, generateTimelineAux, PICKUP_STAGES, List.getLast?]
  · rw [generate_timeline_getElem?]; cases DELIVERY_STAGES[i]? <;> simp
  · simp [generate_timeline, generateTimelineAux, DELIVERY_STAGES, List.filterMap]
    omega
  · simp [generate_timeline, generateTimelineAux, DELIVERY_STAGES, List.getLast?]

/-- C6: in every freshly built timeline, stage 0 has `completed = true`
and `actual_time` equal to the supplied start time, while every later
stage has `completed = false` and `actual_time` unset. -/
theorem C6_fresh_timeline_flags (stages : List StageTemplate) (start : Nat) :
    ((generate_timeline stages start)[0]?.map (fun e => (e.completed, e.actual_time))
        = stages[0]?.map (fun _ => (true, some start)))
    ∧ ∀ i, (generate_timeline stages start)[i + 1]?.map (fun e => (e.completed, e.actual_time))
        = stages[i + 1]?.map (fun _ => (false, none)) := by
  constructor
  · rw [generate_timeline_getElem?]; cases stages[0]? <;> simp
  · intro i; rw [generate_timeline_getElem?]; cases stages[i + 1]? <;> simp

/-- The terminal-stage classification used by `get_all_active_shipments`:
`"Returned to Warehouse" if shipment.get("type") == "pickup" else
"Delivered"`. -/
def terminalFor (t : String) : String :=
  if t = "pickup" then "Returned to Warehouse" else "Delivered"

/-- The abbreviated view appended for each active shipment. -/
structure ActiveShipmentView where
  shipment_id : String
  type : String
  user_id : String
  status : String
  created_at : Nat
deriving Repr, DecidableEq

/-- The projection of one record to the abbreviated active view. -/
def projectActive (s : ShipmentRecord) : ActiveShipmentView :=
  { shipment_id := s.shipment_id
    type := s.type
    user_id := s.user_id
    status := s.status
    created_at := s.created_at }

/-- `ShipmentManager.get_all_active_shipments` applied to the records the
gateway returns: keep, in order, each shipment whose `status` differs
from its type's terminal stage name, projected to the abbreviated view. -/
def get_all_active_shipments : List ShipmentRecord → List ActiveShipmentView
  | [] => []
  | s :: rest =>
      if s.status ≠ terminalFor s.type then
        projectActive s :: get_all_active_shipments rest
      else
        get_all_active_shipments rest

/-- C2: creation ignores the gateway's write outcome: for every outcome —
including the failure outcome `none` — both entry points return a summary
with `success = true`, still start a progression simulation, and produce a
summary and persisted record identical to the ones produced on failure. -/
theorem C2_creation_ignores_write_outcome (uid oid pid hex8 : String)
    (addr : Option String) (ul : Option UserProfile) (now dbNow : Nat)
    (outcome : Option String) :
    ((create_pickup uid oid pid addr ul now dbNow hex8 outcome).result.success = true
      ∧ (create_pickup uid oid pid addr ul now dbNow hex8 outcome).simulation_started = true
      ∧ (create_pickup uid oid pid addr ul now dbNow hex8 outcome).result
          = (create_pickup uid oid pid addr ul now dbNow hex8 none).result
      ∧ (create_pickup uid oid pid addr ul now dbNow hex8 outcome).shipment_data
          = (create_pickup uid oid pid addr ul now dbNow hex8 none).shipment_data)
    ∧ ((create_delivery uid oid pid addr ul now dbNow hex8 outcome).result.success = true
      ∧ (create_delivery uid oid pid addr ul now dbNow hex8 outcome).simulation_started = true
      ∧ (create_delivery uid oid pid addr ul now dbNow hex8 outcome).result
          = (create_delivery uid oid pid addr ul now dbNow hex8 none).result
      ∧ (create_delivery uid oid pid addr ul now dbNow hex8 outcome).shipment_data
          = (create_delivery uid oid pid addr ul now dbNow hex8 none).shipment_data) := by
  refine ⟨⟨rfl, rfl, rfl, rfl⟩, rfl, rfl, rfl, rfl⟩

/-- C8: when no address is supplied and the user-directory lookup returns
no match, the record handed to the gateway carries the literal placeholder
`"Address not provided"`, and creation still returns its normal
`success = true` summary, for both entry points. -/
theorem C8_missing_address_placeholder (uid oid pid hex8 : String) (now dbNow : Nat)
    (outcome : Option String) :
    ((create_delivery uid oid pid none none now dbNow hex8 outcome).shipment_data.address
        = "Address not provided"
      ∧ (create_delivery uid oid pid none none now dbNow hex8 outcome).result.success = true)
    ∧ ((create_pickup uid oid pid none none now dbNow hex8 outcome).shipment_data.address
        = "Address not provided"
      ∧ (create_pickup uid oid pid none none now dbNow hex8 outcome).result.success = true) := by
  refine ⟨⟨rfl, rfl⟩, rfl, rfl⟩

/-- C9: a stage-transition update sets exactly `status`, `updated_at` and
`current_stage` and appends the (completed) stage entry to the stored
timeline; every previously stored timeline entry and every other record
field is unchanged. -/
theorem C9_update_frame (r : ShipmentRecord) (status : String) (dbNow : Nat)
    (sd : TimelineEntry) :
    ((update_shipment_status r status dbNow (some sd)).status = status
      ∧ (update_shipment_status r status dbNow (some sd)).updated_at = dbNow
      ∧ (update_shipment_status r status dbNow (some sd)).current_stage = some sd)
    ∧ (update_shipment_status r status dbNow (some sd)).timeline = r.timeline ++ [sd]
    ∧ (update_shipment_status r status dbNow (some sd)).timeline.take r.timeline.length
        = r.timeline
    ∧ (∀ i : Nat, ((update_shipment_status r status dbNow (some sd)).timeline.take
        r.timeline.length)[i]? = r.timeline[i]?)
    ∧ ((update_shipment_status r status dbNow (some sd)).shipment_id = r.shipment_id
      ∧ (update_shipment_status r status dbNow (some sd)).type = r.type
      ∧ (update_shipment_status r status dbNow (some sd)).user_id = r.user_id
      ∧ (update_shipment_status r status dbNow (some sd)).order_id = r.order_id
      ∧ (update_shipment_status r status dbNow (some sd)).product_id = r.product_id
      ∧ (update_shipment_status r status dbNow (some sd)).address = r.address
      ∧ (update_shipment_status r status dbNow (some sd)).estimated_completion
          = r.estimated_completion
      ∧ (update_shipment_status r status dbNow (some sd)).created_at = r.created_at) := by
  have htake : (r.timeline ++ [sd]).take r.timeline.length = r.timeline :=
    List.take_left r.timeline [sd]
  refine ⟨⟨rfl, rfl, rfl⟩, rfl, ?_, ?_, rfl, rfl, rfl, rfl, rfl, rfl, rfl, rfl⟩
  · simp [update_shipment_status, htake]
  · intro i
    simp [update_shipment_status, htake]

/-- C7: `get_all_active_shipments` returns exactly the records whose
status differs from their type's terminal stage name, each projected to
the abbreviated view, in order; every returned view has a non-terminal
status, and every non-terminal record of the input appears (projected) in
the output.  The terminal name is `"Returned to Warehouse"` for pickups
and `"Delivered"` for deliveries. -/
theorem C7_list_active (l : List ShipmentRecord) :
    get_all_active_shipments l
        = (l.filter (fun s => !(s.status == terminalFor s.type))).map projectActive
    ∧ (∀ v ∈ get_all_active_shipments l, v.status ≠ terminalFor v.type)
    ∧ (∀ s ∈ l, s.status ≠ terminalFor s.type →
        projectActive s ∈ get_all_active_shipments l)
    ∧ terminalFor "pickup" = "Returned to Warehouse"
    ∧ terminalFor "delivery" = "Delivered" := by
  refine ⟨?_, ?_, ?_, rfl, rfl⟩
  · induction l with
    | nil => rfl
    | cons s rest ih =>
      by_cases h : s.status = terminalFor s.type
      · simp [get_all_active_shipments, h, ih]
      · simp [get_all_active_shipments, h, ih]
  · induction l with
    | nil => intro v hv; simp [get_all_active_shipments] at hv
    | cons s rest ih =>
      intro v hv
      by_cases h : s.status = terminalFor s.type
      · simp only [get_all_active_shipments, h] at hv
        · simp at hv
          exact ih v (by simpa [get_all_active_shipments, h] using hv)
      · simp only [get_all_active_shipments] at hv
        rw [if_pos h] at hv
        rcases List.mem_cons.mp hv with h1 | h2
        · subst h1; simpa [projectActive] using h
        · exact ih v h2
  · induction l with
    | nil => intro s hs; simp at hs
    | cons a rest ih =>
      intro s hs hterm
      rcases List.mem_cons.mp hs with h1 | h2
      · subst h1
        simp [get_all_active_shipments, hterm]
      · by_cases h : a.status = terminalFor a.type
        · simpa [get_all_active_shipments, h] using ih s h2 hterm
        · simp only [get_all_active_shipments]
          rw [if_pos h]
          exact List.mem_cons_of_mem _ (ih s h2 hterm)

/-- The catalog selection at the top of `simulate`:
`self.PICKUP_STAGES if shipment_type == "pickup" else self.DELIVERY_STAGES`. -/
def simulationStages (shipment_type : String) : List StageTemplate :=
  if shipment_type = "pickup" then PICKUP_STAGES else DELIVERY_STAGES

/-- The interval the simulate loop actually sleeps before marking a stage
completed: `time.sleep(min(stage["duration_hours"] / self.simulation_speed, 10))`. -/
def simWait (duration_hours : Nat) (speed : ℚ) : ℚ :=
  min ((duration_hours : ℚ) / speed) 10

/-- The stage dict the simulate loop pushes through the gateway:
`{"name": ..., "actual_time": ..., "completed": True}`. -/
def simUpdateEntry (s : StageTemplate) (t : Nat) : TimelineEntry :=
  { name := s.name
    duration_hours := none
    estimated_time := none
    actual_time := some t
    completed := true }

/-- One iteration of the simulate loop: the interval slept, the status
string passed to `update_shipment_status`, and the stage dict pushed. -/
structure SimEvent where
  waited : ℚ
  status : String
  entry : TimelineEntry
deriving Repr, DecidableEq

/-- The simulate loop body over `enumerate(stages[1:], 1)`: `i` is the
running enumeration index, `times i` the `datetime.utcnow()` read of
iteration `i`. -/
def simulateEventsAux (speed : ℚ) (times : Nat → Nat) :
    List StageTemplate → Nat → List SimEvent
  | [], _ => []
  | s :: rest, i =>
      { waited := simWait s.duration_hours speed
        status := s.name
        entry := simUpdateEntry s (times i) }
        :: simulateEventsAux speed times rest (i + 1)

/-- The full event sequence of one `simulate` thread for a shipment of
the given type. -/
def simulateEvents (shipment_type : String) (speed : ℚ) (times : Nat → Nat) :
    List SimEvent :=
  simulateEventsAux speed times ((simulationStages shipment_type).drop 1) 1

/-- Index-wise characterization of the simulate loop's event list. -/
lemma simulateEventsAux_getElem? (speed : ℚ) (times : Nat → Nat)
    (l : List StageTemplate) (i0 k : Nat) :
    (simulateEventsAux speed times l i0)[k]? =
      l[k]?.map (fun s =>
        { waited := simWait s.duration_hours speed
          status := s.name
          entry := simUpdateEntry s (times (i0 + k)) }) := by
  induction l generalizing i0 k with
  | nil => simp [simulateEventsAux]
  | cons s rest ih =>
    cases k with
    | zero => simp [simulateEventsAux]
    | succ m =>
      have h := ih (i0 + 1) m
      have harith : i0 + 1 + m = i0 + (m + 1) := by omega
      simp only [simulateEventsAux, List.getElem?_cons_succ]
      rw [h, harith]

/-- Index-wise characterization of `simulateEvents`. -/
lemma simulateEvents_getElem? (shipment_type : String) (speed : ℚ)
    (times : Nat → Nat) (k : Nat) :
    (simulateEvents shipment_type speed times)[k]? =
      ((simulationStages shipment_type).drop 1)[k]?.map (fun s =>
        { waited := simWait s.duration_hours speed
          status := s.name
          entry := simUpdateEntry s (times (1 + k)) }) := by
  exact simulateEventsAux_getElem? speed times _ 1 k

/-- The persisted record after the first `k` iterations of the simulate
loop have attempted their gateway writes (`unow k` is the database's
clock read of iteration `k`).  `wok k` tells whether iteration `k`'s
`update_shipment_status` call succeeds: on a dropped connection or a
`PyMongoError` the call returns `False` leaving the record as it was,
and the loop — which never inspects the return value — continues with
the next stage.  Beyond the end of the event list nothing changes. -/
def recordAfter (r0 : ShipmentRecord) (shipment_type : String) (speed : ℚ)
    (times unow : Nat → Nat) (wok : Nat → Bool) : Nat → ShipmentRecord
  | 0 => r0
  | k + 1 =>
      match (simulateEvents shipment_type speed times)[k]? with
      | some e =>
          if wok k then
            update_shipment_status (recordAfter r0 shipment_type speed times unow wok k)
              e.status (unow k) (some e.entry)
          else
            recordAfter r0 shipment_type speed times unow wok k
      | none => recordAfter r0 shipment_type speed times unow wok k

/-- A stage name counts as completed in a record when some stored
timeline entry carries that name with `completed = True`. -/
def stageCompleted (r : ShipmentRecord) (name : String) : Bool :=
  r.timeline.any (fun e => e.name == name && e.completed)

/-- C4 (counterexample): the claim as stated is false on the code.  With
multiplier 1, the third simulate-loop iteration of a pickup (stage
`"Out for Pickup"`, planned duration 16) waits `min (16 / 1) 10 = 10`,
not `16 / 1 = 16`. -/
theorem C4_counterexample :
    ((simulateEvents "pickup" 1 (fun _ => 0))[2]?.map SimEvent.waited = some 10)
    ∧ ((PICKUP_STAGES.drop 1)[2]?.map
        (fun s => ((s.duration_hours : ℚ) / 1)) = some 16)
    ∧ ((10 : ℚ) ≠ 16) := by
  refine ⟨?_, by norm_num [PICKUP_STAGES], by norm_num⟩
  rw [simulateEvents_getElem?]
  norm_num [simulationStages, PICKUP_STAGES, simWait]

/-- C4 (amended): for every stage after the first, the interval the
simulate loop sleeps before marking that stage completed equals the
stage's planned duration divided by the configured simulation-speed
multiplier, capped at 10 seconds — `min (duration / speed) 10`; when the
multiplier is 1 the duration is used unscaled whenever it does not exceed
the cap. -/
theorem C4_amended_wait_interval (shipment_type : String) (speed : ℚ)
    (times : Nat → Nat) (k : Nat) :
    ((simulateEvents shipment_type speed times)[k]?.map SimEvent.waited
      = ((simulationStages shipment_type).drop 1)[k]?.map
          (fun s => min ((s.duration_hours : ℚ) / speed) 10))
    ∧ (∀ d : Nat, (d : ℚ) ≤ 10 → simWait d 1 = (d : ℚ)) := by
  constructor
  · rw [simulateEvents_getElem?]
    cases ((simulationStages shipment_type).drop 1)[k]? <;> simp [simWait]
  · intro d hd
    simp [simWait, min_eq_left hd]

/-- C4 witness: the amended theorem applied at a concrete input whose
hypothesis is discharged there: a 4-hour stage at multiplier 1 waits
exactly 4. -/
theorem C4_amended_wait_interval_witness : simWait 4 1 = (4 : ℚ) :=
  (C4_amended_wait_interval "pickup" 1 (fun _ => 0) 0).2 4 (by norm_num)

/-- C10: for every workflow type other than `"pickup"` — unknown types
included — the simulate loop advances the instance with the delivery
catalog, its event sequence is the delivery event sequence, and
`get_all_active_shipments` classifies the instance against the delivery
terminal stage `"Delivered"`; no branch rejects the type. -/
theorem C10_unknown_type_treated_as_delivery (t : String) (h : t ≠ "pickup")
    (speed : ℚ) (times : Nat → Nat) :
    simulationStages t = DELIVERY_STAGES
    ∧ simulateEvents t speed times = simulateEvents "delivery" speed times
    ∧ terminalFor t = "Delivered" := by
  refine ⟨by simp [simulationStages, h], ?_, by simp [terminalFor, h]⟩
  simp [simulateEvents, simulationStages, h]

/-- C10 witness: the theorem applied at the concrete unknown type
`"mystery"`. -/
theorem C10_unknown_type_treated_as_delivery_witness :
    simulationStages "mystery" = DELIVERY_STAGES
    ∧ simulateEvents "mystery" 1 (fun _ => 0) = simulateEvents "delivery" 1 (fun _ => 0)
    ∧ terminalFor "mystery" = "Delivered" :=
  C10_unknown_type_treated_as_delivery "mystery" (by decide) 1 (fun _ => 0)

/-- Entries the timeline-builder loop creates after its first iteration
are all uncompleted, so none of them can witness a completed stage. -/
lemma generateTimelineAux_false_any (l : List StageTemplate) (cur : Nat) (nm : String) :
    (generateTimelineAux l cur false).any (fun e => e.name == nm && e.completed) = false := by
  induction l generalizing cur with
  | nil => simp [generateTimelineAux]
  | cons s rest ih => simp [generateTimelineAux, ih]

/-- In a freshly built timeline exactly the first stage's name counts as
completed. -/
lemma generate_timeline_any_completed (stages : List StageTemplate) (start : Nat)
    (nm : String) :
    ((generate_timeline stages start).any (fun e => e.name == nm && e.completed) = true)
      ↔ ∃ c0, stages[0]? = some c0 ∧ c0.name = nm := by
  cases stages with
  | nil => simp [generate_timeline, generateTimelineAux]
  | cons c0 rest =>
    simp [generate_timeline, generateTimelineAux, generateTimelineAux_false_any]

/-- Both catalogs have pairwise-distinct stage names. -/
lemma simulationStages_names_nodup (t : String) :
    ((simulationStages t).map StageTemplate.name).Nodup := by
  unfold simulationStages
  split <;> decide

/-- Distinct catalog indices carry distinct stage names. -/
lemma simulationStages_name_inj (t : String) {i j : Nat} {si sj : StageTemplate}
    (hi : (simulationStages t)[i]? = some si) (hj : (simulationStages t)[j]? = some sj)
    (hname : si.name = sj.name) : i = j := by
  have hlen : i < (simulationStages t).length := by
    rcases List.getElem?_eq_some_iff.mp hi with ⟨h, _⟩
    exact h
  have hi' : ((simulationStages t).map StageTemplate.name)[i]? = some si.name := by
    simp [hi]
  have hj' : ((simulationStages t).map StageTemplate.name)[j]? = some sj.name := by
    simp [hj]
  refine List.getElem?_inj ?_ (simulationStages_names_nodup t) ?_
  · simpa using hlen
  · rw [hi', hj', hname]

/-- After `k` simulate-loop iterations whose gateway writes all
succeeded, exactly the stages with catalog index `≤ k` count as
completed in the stored record of an instance whose timeline was freshly
built for its type. -/
lemma recordAfter_completed_iff (stype : String) (r0 : ShipmentRecord) (start : Nat)
    (speed : ℚ) (times unow : Nat → Nat) (wok : Nat → Bool)
    (hwok : ∀ m, wok m = true)
    (htl : r0.timeline = generate_timeline (simulationStages stype) start) :
    ∀ k i si, (simulationStages stype)[i]? = some si →
      (stageCompleted (recordAfter r0 stype speed times unow wok k) si.name = true ↔ i ≤ k) := by
  intro k
  induction k with
  | zero =>
    intro i si hi
    have h0 : recordAfter r0 stype speed times unow wok 0 = r0 := rfl
    rw [h0]
    unfold stageCompleted
    rw [htl, generate_timeline_any_completed]
    constructor
    · rintro ⟨c0, hc0, hname⟩
      have h01 := simulationStages_name_inj stype hc0 hi hname
      omega
    · intro hle
      have hi0 : i = 0 := Nat.le_zero.mp hle
      subst hi0
      exact ⟨si, hi, rfl⟩
  | succ k ih =>
    intro i si hi
    cases hev : (simulateEvents stype speed times)[k]? with
    | none =>
      have hstep : recordAfter r0 stype speed times unow wok (k + 1)
          = recordAfter r0 stype speed times unow wok k := by
        simp [recordAfter, hev]
      rw [hstep, ih i si hi]
      have hk : (simulationStages stype).length ≤ 1 + k := by
        have hchar := simulateEvents_getElem? stype speed times k
        rw [hev] at hchar
        have hnone : ((simulationStages stype).drop 1)[k]? = none := by
          cases h : ((simulationStages stype).drop 1)[k]? with
          | none => rfl
          | some s => rw [h] at hchar; simp at hchar
        rw [List.getElem?_drop] at hnone
        have := List.getElem?_eq_none_iff.mp hnone
        omega
      have hilen : i < (simulationStages stype).length := by
        rcases List.getElem?_eq_some_iff.mp hi with ⟨h, _⟩
        exact h
      omega
    | some e =>
      obtain ⟨s, hs, he⟩ : ∃ s, (simulationStages stype)[1 + k]? = some s ∧
          e = { waited := simWait s.duration_hours speed, status := s.name,
                entry := simUpdateEntry s (times (1 + k)) } := by
        have hchar := simulateEvents_getElem? stype speed times k
        rw [hev] at hchar
        cases h : ((simulationStages stype).drop 1)[k]? with
        | none => rw [h] at hchar; simp at hchar
        | some s =>
          rw [h] at hchar
          simp only [Option.map_some', Option.some.injEq] at hchar
          refine ⟨s, ?_, hchar⟩
          rw [← List.getElem?_drop]
          exact h
      have hstep : recordAfter r0 stype speed times unow wok (k + 1)
          = update_shipment_status (recordAfter r0 stype speed times unow wok k)
              e.status (unow k) (some e.entry) := by
        simp [recordAfter, hev, hwok k]
      have htl' : (update_shipment_status (recordAfter r0 stype speed times unow wok k)
          e.status (unow k) (some e.entry)).timeline
          = (recordAfter r0 stype speed times unow wok k).timeline ++ [e.entry] := rfl
      rw [hstep]
      unfold stageCompleted
      rw [htl', List.any_append]
      have hihk := ih i si hi
      unfold stageCompleted at hihk
      rw [Bool.or_eq_true, hihk]
      subst he
      simp only [simUpdateEntry, List.any_cons, List.any_nil, Bool.or_false,
        Bool.and_true]
      constructor
      · rintro (h | h)
        · omega
        · have hname : s.name = si.name := by simpa using h
          have h1k := simulationStages_name_inj stype hs hi hname
          omega
      · intro h
        rcases Nat.lt_or_ge i (k + 1) with hlt | hge
        · left
          omega
        · right
          have hik : i = 1 + k := by omega
          rw [hik] at hi
          rw [hs] at hi
          have hsi : s = si := Option.some.inj hi
          simp [hsi]

/-- C3 (counterexample): the claim as stated is false on the code,
because the simulate loop never inspects `update_shipment_status`'s
return value: on a failed write the record is left unchanged and the
loop continues with the next stage.  For a concretely created pickup,
when iteration 0's write fails and iteration 1's succeeds, the reachable
persisted state after two iterations has catalog stage 2
(`"Agent Assigned"`) marked completed while the earlier stage 1
(`"Pickup Scheduled"`) is not. -/
theorem C3_counterexample :
    (simulationStages "pickup")[2]? = some ⟨"Agent Assigned", 8⟩
    ∧ (simulationStages "pickup")[1]? = some ⟨"Pickup Scheduled", 6⟩
    ∧ stageCompleted
        (recordAfter (create_pickup "U1" "O1" "P1" none none 0 0 "AB12CD34" none).shipment_data
          "pickup" 1 (fun _ => 0) (fun _ => 0) (fun m => m != 0) 2)
        "Agent Assigned" = true
    ∧ stageCompleted
        (recordAfter (create_pickup "U1" "O1" "P1" none none 0 0 "AB12CD34" none).shipment_data
          "pickup" 1 (fun _ => 0) (fun _ => 0) (fun m => m != 0) 2)
        "Pickup Scheduled" = false := by
  refine ⟨by decide, by decide, by decide, by decide⟩

/-- C3 (amended): for every running instance (a record whose stored
timeline was freshly built from its type's catalog), provided every
gateway write of the progression succeeds, at every reachable persisted
state — after any number `k` of simulate-loop iterations — no stage is
marked completed while an earlier stage in the catalog order is not:
completions become true strictly in catalog order. -/
theorem C3_amended_monotonic_progression (stype : String) (r0 : ShipmentRecord)
    (start : Nat) (speed : ℚ) (times unow : Nat → Nat) (wok : Nat → Bool)
    (hwok : ∀ m, wok m = true)
    (htl : r0.timeline = generate_timeline (simulationStages stype) start)
    (k i j : Nat) (si sj : StageTemplate)
    (hi : (simulationStages stype)[i]? = some si)
    (hj : (simulationStages stype)[j]? = some sj)
    (hji : j < i)
    (hcomp : stageCompleted (recordAfter r0 stype speed times unow wok k) si.name = true) :
    stageCompleted (recordAfter r0 stype speed times unow wok k) sj.name = true := by
  have h1 :=
    (recordAfter_completed_iff stype r0 start speed times unow wok hwok htl k i si hi).mp hcomp
  exact
    (recordAfter_completed_iff stype r0 start speed times unow wok hwok htl k j sj hj).mpr
      (by omega)

/-- C3 witness: with all writes succeeding, after two simulate iterations
of a concretely created pickup, stage 2 (`"Agent Assigned"`) is completed
and the theorem yields that the earlier stage 1 (`"Pickup Scheduled"`) is
completed as well. -/
theorem C3_amended_monotonic_progression_witness :
    stageCompleted
      (recordAfter (create_pickup "U1" "O1" "P1" none none 0 0 "AB12CD34" none).shipment_data
        "pickup" 1 (fun _ => 0) (fun _ => 0) (fun _ => true) 2)
      "Pickup Scheduled" = true :=
  C3_amended_monotonic_progression "pickup"
    (create_pickup "U1" "O1" "P1" none none 0 0 "AB12CD34" none).shipment_data
    0 1 (fun _ => 0) (fun _ => 0) (fun _ => true) (fun _ => rfl) (by decide) 2 2 1
    ⟨"Agent Assigned", 8⟩ ⟨"Pickup Scheduled", 6⟩ (by decide) (by decide) (by decide)
    (by decide)

/-- A concrete non-terminal pickup record used to witness the active
listing. -/
def sampleActiveRecord : ShipmentRecord :=
  { shipment_id := "PKP-00000001"
    type := "pickup"
    user_id := "U1"
    order_id := "O1"
    product_id := "P1"
    address := "A"
    status := "Pickup Requested"
    current_stage := none
    timeline := []
    estimated_completion := none
    created_at := 0
    updated_at := 0 }

/-- C7 witness: the theorem applied to the singleton store holding a
non-terminal pickup puts its projection in the active listing. -/
theorem C7_list_active_witness :
    projectActive sampleActiveRecord
      ∈ get_all_active_shipments [sampleActiveRecord] :=
  (C7_list_active [sampleActiveRecord]).2.2.1 sampleActiveRecord (by simp) (by decide)
